import Mathlib

/-!
Verification of `rpc_gds_export.py` (Reversible Photonic Computing Fab
Digital Twin generator).

The script is a one-shot generator: a minimal GDSII record writer
(`GDSWriter`), a set of geometry helpers that register 2D polygons into a
shared list (`all_polygons`), a fixed metadata JSON document, and a
sinusoidal "phase fidelity" curve.

Embedding choices:
* The GDSII writer is embedded over `ℚ` (the Python literals `1e-6`,
  `1e-9` are exact decimal rationals); `truncInt` models Python's `int()`
  truncation toward zero.  A record is kept structurally as
  (record type, data type, payload) rather than as raw bytes.
* The geometry helpers are embedded over `ℝ` (the Python code uses
  `math.cos`, `math.sin`, `math.hypot`); real-number arithmetic is the
  idealisation of the script's floating point.
* The JSON metadata document is embedded with exact rationals, together
  with an executable renderer mirroring `json.dump(..., indent=2)` and an
  executable JSON parser, so the round-trip claim can be decided.
-/

/-! ## GDSII writer (`class GDSWriter`) -/

/-- Structural payload of one GDS record, mirroring the `struct.pack`
calls of the script: 2-byte unsigned ints, a 12-short timestamp pair,
ASCII strings, big-endian doubles, and 4-byte signed ints. -/
inductive Payload where
  | u16 (n : ℕ)
  | times (ts : List ℕ)
  | ascii (s : String)
  | f64s (xs : List ℚ)
  | i32s (xs : List ℤ)
  | empty
deriving DecidableEq, Repr

/-- One GDS record: `write_record(rectype, datatype, data)`. -/
structure GDSRec where
  rectype : ℕ
  datatype : ℕ
  data : Payload
deriving DecidableEq, Repr

/-- State of a `GDSWriter`: the configuration fields set in `__init__`
and the sequence of records written so far (the file contents). -/
structure GDSWriter where
  unit : ℚ
  precision : ℚ
  records : List GDSRec
deriving DecidableEq, Repr

/-- `GDSWriter.__init__`: `self.unit = 1e-6`, `self.precision = 1e-9`,
file opened empty. -/
def GDSWriter.init : GDSWriter :=
  { unit := 1e-6, precision := 1e-9, records := [] }

/-- `write_record`: appends one record to the stream. -/
def GDSWriter.writeRecord (w : GDSWriter) (rectype datatype : ℕ)
    (data : Payload) : GDSWriter :=
  { w with records := w.records ++ [⟨rectype, datatype, data⟩] }

/-- Python `int()` applied to a rational: truncation toward zero
(`Int.tdiv` of the reduced numerator by the denominator is exactly
truncation toward zero of `num/den`). -/
def truncInt (q : ℚ) : ℤ :=
  Int.tdiv q.num (q.den : ℤ)

/-- Sanity: `truncInt` is floor for nonnegative arguments and ceiling for
negative ones, i.e. truncation toward zero. -/
theorem truncInt_eq (q : ℚ) : truncInt q = if 0 ≤ q then ⌊q⌋ else ⌈q⌉ := by
  rcases le_or_lt 0 q with h | h
  · have hnum : 0 ≤ q.num := Rat.num_nonneg.mpr h
    rw [truncInt, if_pos h, Rat.floor_def,
      Int.tdiv_eq_ediv hnum (by positivity)]
  · have hnum : 0 ≤ -q.num := by
      have := Rat.num_nonpos.mpr h.le; omega
    have h2 : ⌈q⌉ = -⌊-q⌋ := by rw [Int.floor_neg]; ring
    rw [truncInt, if_neg (not_le.mpr h), h2, Rat.floor_def,
      show q.num = -(-q.num) by ring, Int.neg_tdiv, Rat.neg_num, Rat.neg_den,
      Int.tdiv_eq_ediv hnum (by positivity)]


/-- `write_header`: HEADER (version 600), BGNLIB (timestamp pair),
LIBNAME ("RPC_INTERFACE\0"), UNITS.  The UNITS payload is
`struct.pack(">dd", self.precision, self.unit)`: precision first. -/
def GDSWriter.writeHeader (w : GDSWriter) (now : List ℕ) : GDSWriter :=
  ((((w.writeRecord 0x00 0x02 (.u16 600)).writeRecord
      0x01 0x02 (.times (now ++ now))).writeRecord
      0x02 0x06 (.ascii "RPC_INTERFACE\x00")).writeRecord
      0x03 0x05 (.f64s [w.precision, w.unit]))

/-- Scaling of one point in `write_boundary`:
`coords.extend([int(x / self.unit), int(y / self.unit)])`. -/
def scalePoint (unit : ℚ) (p : ℚ × ℚ) : List ℤ :=
  [truncInt (p.1 / unit), truncInt (p.2 / unit)]

/-- `write_boundary(layer, datatype, points)`: BOUNDARY, LAYER, DATATYPE,
XY (the scaled coordinate list), ENDEL. -/
def GDSWriter.writeBoundary (w : GDSWriter) (layer datatype : ℕ)
    (points : List (ℚ × ℚ)) : GDSWriter :=
  let coords := points.flatMap (scalePoint w.unit)
  (((((w.writeRecord 0x08 0x00 .empty).writeRecord
      0x0D 0x02 (.u16 layer)).writeRecord
      0x0E 0x02 (.u16 datatype)).writeRecord
      0x10 0x03 (.i32s coords)).writeRecord
      0x11 0x00 .empty)

/-- `close`: ENDLIB record. -/
def GDSWriter.closeWriter (w : GDSWriter) : GDSWriter :=
  w.writeRecord 0x04 0x00 .empty

theorem truncInt_intCast (n : ℤ) : truncInt ((n : ℚ)) = n := by
  rw [truncInt_eq]; split <;> simp

/-- Scaling the physical point (1.0, 2.0) with the default unit 1e-6
yields the database-unit pair (1000000, 2000000). -/
theorem scalePoint_one_two :
    scalePoint (1e-6 : ℚ) (1.0, 2.0) = [1000000, 2000000] := by
  have h1 : ((1.0 : ℚ)) / (1e-6 : ℚ) = ((1000000 : ℤ) : ℚ) := by norm_num
  have h2 : ((2.0 : ℚ)) / (1e-6 : ℚ) = ((2000000 : ℤ) : ℚ) := by norm_num
  simp only [scalePoint, h1, h2, truncInt_intCast]

/-- C1: with the default unit size 1e-6, writing a boundary whose point
list contains the physical coordinate (1.0, 2.0) emits, inside the XY
record (the fourth record emitted by `write_boundary`), the integer
database-unit pair (1000000, 2000000) at the position of that point,
every point being scaled by division by the unit size and truncation. -/
theorem c1_coordinate_scaling (layer datatype : ℕ) (pre post : List (ℚ × ℚ)) :
    (GDSWriter.init.writeBoundary layer datatype
        (pre ++ (1.0, 2.0) :: post)).records.get? 3 =
      some ⟨0x10, 0x03, .i32s (pre.flatMap (scalePoint GDSWriter.init.unit)
        ++ 1000000 :: 2000000 ::
          post.flatMap (scalePoint GDSWriter.init.unit))⟩ := by
  simp [GDSWriter.writeBoundary, GDSWriter.writeRecord, GDSWriter.init,
    scalePoint_one_two, List.flatMap_append]

/-- C3 counterexample: the UNITS record written by `write_header` does
not carry (unit, precision) in that order — at the concrete timestamp
[2026,1,1,0,0,0] its payload differs from
`f64s [unit, precision] = f64s [1e-6, 1e-9]`. -/
theorem c3_units_order_counterexample :
    ¬ ((GDSWriter.init.writeHeader [2026, 1, 1, 0, 0, 0]).records.get? 3 =
      some ⟨0x03, 0x05,
        .f64s [GDSWriter.init.unit, GDSWriter.init.precision]⟩) := by
  have hne : GDSWriter.init.precision ≠ GDSWriter.init.unit := by
    norm_num [GDSWriter.init]
  simp [GDSWriter.writeHeader, GDSWriter.writeRecord, GDSWriter.init]
  norm_num

/-- C3 (amended): `write_header` appends exactly four records, in the
fixed order HEADER (version), BGNLIB (timestamp pair), LIBNAME, UNITS,
where the UNITS record carries the two doubles in the order
(precision, database unit size). -/
theorem c3_header_four_records (w : GDSWriter) (now : List ℕ) :
    (w.writeHeader now).records = w.records ++
      [⟨0x00, 0x02, .u16 600⟩,
       ⟨0x01, 0x02, .times (now ++ now)⟩,
       ⟨0x02, 0x06, .ascii "RPC_INTERFACE\x00"⟩,
       ⟨0x03, 0x05, .f64s [w.precision, w.unit]⟩] := by
  simp [GDSWriter.writeHeader, GDSWriter.writeRecord]

/-! ## Geometry builder (layout parameters and helper functions) -/

/-- A 2D point (real idealisation of the script's floats). -/
abbrev Point : Type := ℝ × ℝ

/-- An RGB fill color. -/
abbrev Color : Type := ℝ × ℝ × ℝ

/-- A registered polygon: point list plus fill color. -/
abbrev Polygon : Type := List Point × Color

noncomputable def bus_x_start : ℝ := 100.0
noncomputable def core_x : ℝ := 300.0
noncomputable def core_y : ℝ := 0.0
noncomputable def core_size : ℝ := 120.0
noncomputable def mod_size : ℝ := 25.0
noncomputable def wg_width : ℝ := 0.45

/-- Registration function `add_polygon(points, color)`: if
`points[0] != points[-1]` the first point is appended to the point list;
then the polygon is appended to the shared list. -/
noncomputable def add_polygon (points : List Point) (color : Color)
    (ps : List Polygon) : List Polygon :=
  if points.head? = points.getLast? then ps ++ [(points, color)]
  else ps ++ [(points ++ points.head?.toList, color)]

/-- Inner helper `hue2rgb(p, q, t)` of `hsl_to_rgb`; Python `t %= 1` is
reduction modulo one, `Int.fract`. -/
noncomputable def hue2rgb (p q t : ℝ) : ℝ :=
  let t := Int.fract t
  if t < 1 / 6 then p + (q - p) * 6 * t
  else if t < 1 / 2 then q
  else if t < 2 / 3 then p + (q - p) * (2 / 3 - t) * 6
  else p

/-- `hsl_to_rgb(h_deg, s, l)` (defaults `s=70`, `l=70` at all call
sites). -/
noncomputable def hsl_to_rgb (h_deg : ℝ) (s l : ℝ) : Color :=
  let h := h_deg / 360.0
  let s := s / 100.0
  let l := l / 100.0
  if s = 0 then (l, l, l)
  else
    let q := if l < 0.5 then l * (1 + s) else l + s - l * s
    let p := 2 * l - q
    (hue2rgb p q (h + 1 / 3), hue2rgb p q h, hue2rgb p q (h - 1 / 3))

/-- `waveguide_path(x0, y0, x1, y1, width, color)`: no-op on zero
segment length, otherwise registers the width-offset rectangle.  Returns
the Python return value (None or the point list) together with the new
shared list. -/
noncomputable def waveguide_path (x0 y0 x1 y1 width : ℝ) (color : Color)
    (ps : List Polygon) : Option (List Point) × List Polygon :=
  let dx := x1 - x0
  let dy := y1 - y0
  let length := Real.sqrt (dx ^ 2 + dy ^ 2)
  if length = 0 then (none, ps)
  else
    let ux := dx / length
    let uy := dy / length
    let px := -uy
    let py := ux
    let half := width / 2
    let pts := [(x0 + px * half, y0 + py * half),
                (x1 + px * half, y1 + py * half),
                (x1 - px * half, y1 - py * half),
                (x0 - px * half, y0 - py * half)]
    (some pts, add_polygon pts color ps)

/-- Vertex list of one ring boundary of radius `r` around `(xc, yc)`:
`[(xc + r*cos(2*pi*i/n), yc + r*sin(2*pi*i/n)) for i in range(n+1)]`
with `n = 64`. -/
noncomputable def ringPts (xc yc r : ℝ) : List Point :=
  (List.range 65).map fun i : ℕ =>
    (xc + r * Real.cos (2 * Real.pi * (i : ℝ) / 64),
     yc + r * Real.sin (2 * Real.pi * (i : ℝ) / 64))

/-- `ring_resonator_placeholder(xc, yc, radius, width, color)`: registers
the outer boundary with the caller's color, then the inner boundary with
fixed white fill, and returns the outer point list. -/
noncomputable def ring_resonator_placeholder (xc yc radius width : ℝ)
    (color : Color) (ps : List Polygon) : List Point × List Polygon :=
  let outer := ringPts xc yc (radius + width / 2)
  let inner := ringPts xc yc (radius - width / 2)
  (outer, add_polygon inner (1, 1, 1) (add_polygon outer color ps))

/-- `iq_mod_placeholder(x, y, size, color)`: axis-aligned square. -/
noncomputable def iq_mod_placeholder (x y size : ℝ) (color : Color)
    (ps : List Polygon) : List Point × List Polygon :=
  let pts := [(x, y), (x + size, y), (x + size, y + size), (x, y + size)]
  (pts, add_polygon pts color ps)

/-- `detector_placeholder(x, y, size, color)`: identical geometry. -/
noncomputable def detector_placeholder (x y size : ℝ) (color : Color)
    (ps : List Polygon) : List Point × List Polygon :=
  let pts := [(x, y), (x + size, y), (x + size, y + size), (x, y + size)]
  (pts, add_polygon pts color ps)

/-- Hue of channel `i` in the layout loop: `hue = i*45.0`. -/
noncomputable def channelHue (i : ℕ) : ℝ := i * 45.0

/-- One iteration of the 8-channel layout loop: ring, three waveguides,
modulator square, detector square. -/
noncomputable def buildChannel (i : ℕ) (ps : List Polygon) : List Polygon :=
  let y : ℝ := i * 15.0 - 52.5
  let rgb := hsl_to_rgb (channelHue i) 70 70
  let ps1 := (ring_resonator_placeholder (bus_x_start + 50 + i * 20) y
    10.0 0.45 rgb ps).2
  let ps2 := (waveguide_path (bus_x_start + 20) y (bus_x_start + 80) y
    wg_width (0.7, 0.7, 0.7) ps1).2
  let ps3 := (waveguide_path (bus_x_start + 80) y (bus_x_start + 80)
    (y + 10) wg_width rgb ps2).2
  let ps4 := (waveguide_path (bus_x_start + 80) (y + 10)
    (bus_x_start - 20) y wg_width rgb ps3).2
  let ps5 := (iq_mod_placeholder (bus_x_start - 50) (y - mod_size / 2)
    25.0 rgb ps4).2
  (detector_placeholder (core_x + core_size + 50) (y - mod_size / 2)
    25.0 rgb ps5).2

/-- The shared polygon list after the whole generation pass: the eight
channel iterations followed by the central bus waveguide. -/
noncomputable def all_polygons : List Polygon :=
  (waveguide_path 0 0 (core_x + core_size + 100) 0 wg_width
    (0.6, 0.6, 0.6) ((List.range 8).foldl (fun ps i => buildChannel i ps) [])).2

/-- Self-test threshold: `expected_poly = 8*4`. -/
def expected_poly : ℕ := 8 * 4

/-! ## Counting lemmas -/

theorem add_polygon_length (pts : List Point) (c : Color) (ps : List Polygon) :
    (add_polygon pts c ps).length = ps.length + 1 := by
  unfold add_polygon; split <;> simp

theorem waveguide_path_length (x0 y0 x1 y1 width : ℝ) (c : Color)
    (ps : List Polygon) (h : x1 ≠ x0 ∨ y1 ≠ y0) :
    ((waveguide_path x0 y0 x1 y1 width c ps).2).length = ps.length + 1 := by
  have hpos : 0 < (x1 - x0) ^ 2 + (y1 - y0) ^ 2 := by
    rcases h with h | h
    · have h1 : x1 - x0 ≠ 0 := sub_ne_zero.mpr h
      have h2 : 0 < (x1 - x0) ^ 2 :=
        lt_of_le_of_ne (sq_nonneg _) (Ne.symm (pow_ne_zero 2 h1))
      nlinarith [sq_nonneg (y1 - y0)]
    · have h1 : y1 - y0 ≠ 0 := sub_ne_zero.mpr h
      have h2 : 0 < (y1 - y0) ^ 2 :=
        lt_of_le_of_ne (sq_nonneg _) (Ne.symm (pow_ne_zero 2 h1))
      nlinarith [sq_nonneg (x1 - x0)]
  have hsq : Real.sqrt ((x1 - x0) ^ 2 + (y1 - y0) ^ 2) ≠ 0 :=
    Real.sqrt_ne_zero'.mpr hpos
  simp only [waveguide_path]
  rw [if_neg hsq]
  simp [add_polygon_length]

theorem ring_resonator_length (xc yc radius width : ℝ) (c : Color)
    (ps : List Polygon) :
    ((ring_resonator_placeholder xc yc radius width c ps).2).length =
      ps.length + 2 := by
  simp [ring_resonator_placeholder, add_polygon_length]

theorem iq_mod_length (x y size : ℝ) (c : Color) (ps : List Polygon) :
    ((iq_mod_placeholder x y size c ps).2).length = ps.length + 1 := by
  simp [iq_mod_placeholder, add_polygon_length]

theorem detector_length (x y size : ℝ) (c : Color) (ps : List Polygon) :
    ((detector_placeholder x y size c ps).2).length = ps.length + 1 := by
  simp [detector_placeholder, add_polygon_length]

theorem buildChannel_length (i : ℕ) (ps : List Polygon) :
    (buildChannel i ps).length = ps.length + 7 := by
  simp only [buildChannel]
  rw [detector_length, iq_mod_length,
    waveguide_path_length _ _ _ _ _ _ _ (Or.inl (by intro h; linarith)),
    waveguide_path_length _ _ _ _ _ _ _ (Or.inr (by intro h; linarith)),
    waveguide_path_length _ _ _ _ _ _ _ (Or.inl (by intro h; linarith)),
    ring_resonator_length]

theorem foldl_buildChannel_length (l : List ℕ) (ps : List Polygon) :
    (l.foldl (fun a i => buildChannel i a) ps).length =
      ps.length + 7 * l.length := by
  induction l generalizing ps with
  | nil => simp
  | cons i t ih =>
    rw [List.foldl_cons, ih, buildChannel_length, List.length_cons]
    ring

theorem all_polygons_length : all_polygons.length = 57 := by
  rw [all_polygons,
    waveguide_path_length _ _ _ _ _ _ _
      (Or.inl (by norm_num [core_x, core_size])),
    foldl_buildChannel_length]
  simp

/-- C4: for the unmodified parameter set the registered polygon count
meets the asserted floor `expected_poly = 32`, so the assertion's failure
branch is unreachable and the pipeline reaches the success message. -/
theorem c4_selftest_bound : expected_poly ≤ all_polygons.length := by
  rw [all_polygons_length, expected_poly]
  norm_num

/-- C10: the registered polygon count at the self-check is exactly 57 —
each of the 8 channel iterations contributes exactly 7 polygons
(ring outer, ring inner, three non-degenerate waveguides, modulator,
detector) and the final central bus waveguide contributes one more. -/
theorem c10_polygon_count :
    all_polygons.length = 57 ∧
      ∀ (i : ℕ) (ps : List Polygon),
        (buildChannel i ps).length = ps.length + 7 :=
  ⟨all_polygons_length, buildChannel_length⟩

/-! ## Ring geometry (C5) -/

/-- Euclidean distance between two points. -/
noncomputable def dist2 (c p : Point) : ℝ :=
  Real.sqrt ((p.1 - c.1) ^ 2 + (p.2 - c.2) ^ 2)

theorem ringPts_length (xc yc r : ℝ) : (ringPts xc yc r).length = 65 := by
  simp [ringPts]

theorem ringPts_head (xc yc r : ℝ) :
    (ringPts xc yc r).head? = some (xc + r, yc) := by
  rw [ringPts, List.range_succ_eq_map, List.map_cons, List.head?_cons]
  norm_num

theorem ringPts_getLast (xc yc r : ℝ) :
    (ringPts xc yc r).getLast? = some (xc + r, yc) := by
  have h64 : (2 * Real.pi * ((64 : ℕ) : ℝ) / 64 : ℝ) = 2 * Real.pi := by
    push_cast; ring
  rw [ringPts, show (65 : ℕ) = 64 + 1 from rfl, List.range_succ,
    List.map_append, List.map_cons, List.map_nil, List.getLast?_concat,
    h64, Real.cos_two_pi, Real.sin_two_pi]
  norm_num

theorem ringPts_dist (xc yc r : ℝ) (p : Point) (hp : p ∈ ringPts xc yc r) :
    dist2 (xc, yc) p = |r| := by
  simp only [ringPts, List.mem_map, List.mem_range] at hp
  obtain ⟨i, _, rfl⟩ := hp
  have key : (xc + r * Real.cos (2 * Real.pi * i / 64) - xc) ^ 2 +
      (yc + r * Real.sin (2 * Real.pi * i / 64) - yc) ^ 2 = r ^ 2 := by
    linear_combination r ^ 2 * Real.sin_sq_add_cos_sq (2 * Real.pi * i / 64)
  rw [dist2, key, Real.sqrt_sq_eq_abs]

theorem add_polygon_ringPts (xc yc r : ℝ) (c : Color) (ps : List Polygon) :
    add_polygon (ringPts xc yc r) c ps = ps ++ [(ringPts xc yc r, c)] := by
  rw [add_polygon, if_pos (by rw [ringPts_head, ringPts_getLast])]

theorem ring_resonator_registers (xc yc radius width : ℝ) (c : Color)
    (ps : List Polygon) :
    (ring_resonator_placeholder xc yc radius width c ps).2 =
      ps ++ [(ringPts xc yc (radius + width / 2), c),
             (ringPts xc yc (radius - width / 2), (1, 1, 1))] := by
  simp [ring_resonator_placeholder, add_polygon_ringPts]

/-- C5 counterexample: at center (0,0), radius -1, width 0, the first
outer-boundary vertex is (-1, 0), whose distance from the center is 1,
not `radius + width/2 = -1`; so the claim's "vertices all lie at
distance radius + width/2" fails for this radius and width. -/
theorem c5_counterexample :
    ((ring_resonator_placeholder 0 0 (-1) 0 (0.5, 0.5, 0.5) []).1).head? =
        some (-1, 0) ∧
      dist2 (0, 0) (-1, 0) = 1 ∧ (1 : ℝ) ≠ (-1) + 0 / 2 := by
  refine ⟨?_, ?_, by norm_num⟩
  · show (ringPts 0 0 ((-1) + 0 / 2)).head? = some (-1, 0)
    rw [ringPts_head]; norm_num
  · rw [dist2]; norm_num

/-- C5 (amended): for every center, radius and width the ring builder
registers exactly two 65-point (64-sided, closed) boundaries — the outer
one with the caller's color and vertices at distance |radius + width/2|
from the center, then the inner one with fixed white fill (1,1,1) and
vertices at distance |radius - width/2|. -/
theorem c5_ring_geometry (xc yc radius width : ℝ) (color : Color)
    (ps : List Polygon) :
    (ring_resonator_placeholder xc yc radius width color ps).2 =
        ps ++ [(ringPts xc yc (radius + width / 2), color),
               (ringPts xc yc (radius - width / 2), (1, 1, 1))] ∧
      (ringPts xc yc (radius + width / 2)).length = 65 ∧
      (ringPts xc yc (radius - width / 2)).length = 65 ∧
      (∀ p ∈ ringPts xc yc (radius + width / 2),
        dist2 (xc, yc) p = |radius + width / 2|) ∧
      (∀ p ∈ ringPts xc yc (radius - width / 2),
        dist2 (xc, yc) p = |radius - width / 2|) :=
  ⟨ring_resonator_registers xc yc radius width color ps,
   ringPts_length _ _ _, ringPts_length _ _ _,
   fun p hp => ringPts_dist _ _ _ p hp,
   fun p hp => ringPts_dist _ _ _ p hp⟩

/-! ## Channel hues (C6) -/

/-- C6: the hue tinting channel i is `i*45.0`, which for i in 0..7
equals `(i*45) mod 360` degrees; the eight hues are pairwise distinct,
and channels 0 and 7 differ by 315 degrees. -/
theorem c6_channel_hues :
    (∀ i : Fin 8, channelHue i = (((i : ℕ) * 45) % 360 : ℕ)) ∧
      (∀ i j : Fin 8, channelHue i = channelHue j → i = j) ∧
      channelHue 7 - channelHue 0 = 315 := by
  refine ⟨?_, ?_, by norm_num [channelHue]⟩
  · intro i; fin_cases i <;> norm_num [channelHue]
  · intro i j h
    rw [channelHue, channelHue] at h
    have h45 : ((i : ℕ) : ℝ) = ((j : ℕ) : ℝ) :=
      mul_right_cancel₀ (by norm_num : (45.0 : ℝ) ≠ 0) h
    exact Fin.ext (by exact_mod_cast h45)

/-! ## Degenerate waveguide (C7) -/

/-- C7: a waveguide strip whose endpoints coincide returns None and
leaves the shared polygon list exactly as it was. -/
theorem c7_degenerate_waveguide (x0 y0 x1 y1 width : ℝ) (c : Color)
    (ps : List Polygon) (hx : x1 = x0) (hy : y1 = y0) :
    waveguide_path x0 y0 x1 y1 width c ps = (none, ps) := by
  subst hx; subst hy
  rw [waveguide_path]
  norm_num

/-- C7 witness at endpoints (1,2) = (1,2) with the default width and
color and an empty shared list. -/
theorem c7_witness :
    waveguide_path 1 2 1 2 0.45 (0.7, 0.7, 0.7) [] = (none, []) :=
  c7_degenerate_waveguide 1 2 1 2 0.45 (0.7, 0.7, 0.7) [] rfl rfl

/-! ## Closedness invariant (C9) -/

/-- A polygon is closed when its first point equals its last point. -/
def isClosed (p : Polygon) : Prop := p.1.head? = p.1.getLast?

/-- Every polygon of the list is closed. -/
def allClosed (ps : List Polygon) : Prop := ∀ p ∈ ps, isClosed p

/-- C9: the registration function preserves the closedness invariant:
if every polygon already in the shared list is closed, then after
`add_polygon` (which duplicates the first point at the end whenever it
differs from the last) every polygon is still closed. -/
theorem c9_registration_preserves_closed (pts : List Point) (c : Color)
    (ps : List Polygon) (h : allClosed ps) :
    allClosed (add_polygon pts c ps) := by
  intro p hp
  rw [add_polygon] at hp
  split at hp
  case isTrue heq =>
    rcases List.mem_append.mp hp with hmem | hmem
    · exact h p hmem
    · simp only [List.mem_singleton] at hmem
      subst hmem; exact heq
  case isFalse hne =>
    rcases List.mem_append.mp hp with hmem | hmem
    · exact h p hmem
    · simp only [List.mem_singleton] at hmem
      subst hmem
      cases pts with
      | nil => simp at hne
      | cons a t =>
        show ((a :: t) ++ [a]).head? = ((a :: t) ++ [a]).getLast?
        rw [List.getLast?_concat]
        rfl

/-- C9 witness: registering an open triangle on an empty list yields a
list of closed polygons. -/
theorem c9_witness :
    allClosed (add_polygon [((0 : ℝ), (0 : ℝ)), (1, 0), (1, 1)]
      (0.8, 0.8, 0.8) []) :=
  c9_registration_preserves_closed [((0 : ℝ), (0 : ℝ)), (1, 0), (1, 1)]
    (0.8, 0.8, 0.8) [] (by intro p hp; simp at hp)

/-! ## Phase fidelity curve (C2) -/

/-- Sample points `t = np.linspace(0, 8, 500)`: the k-th of the 500
evenly spaced samples is `8k/499`. -/
noncomputable def tSample (k : ℕ) : ℝ := 8 * k / 499

/-- The plotted curve `phase = 0.98 + (0.995-0.98)*np.sin(2*pi*t/8)` at
the k-th sample. -/
noncomputable def phaseSample (k : ℕ) : ℝ :=
  0.98 + (0.995 - 0.98) * Real.sin (2 * Real.pi * tSample k / 8)

/-- C2 counterexample: at sample k = 375 (t = 3000/499, in the reverse
half of the domain) the curve value is strictly below 0.98, so it does
not lie between the bounds 0.98 and 0.995. -/
theorem c2_counterexample : phaseSample 375 < 0.98 := by
  have harg : 2 * Real.pi * tSample 375 / 8 =
      Real.pi * 251 / 499 + Real.pi := by
    rw [tSample]; push_cast; ring
  have hsinpos : 0 < Real.sin (Real.pi * 251 / 499) :=
    Real.sin_pos_of_pos_of_lt_pi (by positivity)
      (by nlinarith [Real.pi_pos])
  have hsin : Real.sin (2 * Real.pi * tSample 375 / 8) < 0 := by
    rw [harg, Real.sin_add]
    simp only [Real.sin_pi, Real.cos_pi]
    nlinarith
  have hmul : (0.995 - 0.98) * Real.sin (2 * Real.pi * tSample 375 / 8) < 0 :=
    mul_neg_of_pos_of_neg (by norm_num) hsin
  rw [phaseSample]; linarith

/-- C2 (amended): every one of the 500 samples of the curve lies between
0.965 (= 0.98 - (0.995-0.98)) and 0.995; the stated lower bound 0.98 is
exceeded downward in the reverse half, but the upper bound 0.995 holds. -/
theorem c2_sample_bounds (k : ℕ) (_hk : k < 500) :
    0.965 ≤ phaseSample k ∧ phaseSample k ≤ 0.995 := by
  have h1 := Real.neg_one_le_sin (2 * Real.pi * tSample k / 8)
  have h2 := Real.sin_le_one (2 * Real.pi * tSample k / 8)
  rw [phaseSample]
  constructor <;> nlinarith

/-- C2 witness at the first sample. -/
theorem c2_witness : 0.965 ≤ phaseSample 0 ∧ phaseSample 0 ≤ 0.995 :=
  c2_sample_bounds 0 (by norm_num)

/-! ## Metadata JSON document (C8)

The script serializes a fixed dict with `json.dump(metadata, f, indent=2)`.
A float literal is kept as its exact decimal value `mant / 10^exp`
(mantissa and decimal-exponent pair) — the form in which both the Python
source literal and the serialized decimal text carry it exactly;
integers are kept separate because Python serializes `8` and `10.0`
differently. -/

inductive JVal where
  | jint (n : ℤ)
  | jnum (mant : ℤ) (exp : ℕ)
  | jstr (s : String)
  | jbool (b : Bool)
  | jarr (elems : List JVal)
  | jobj (fields : List (String × JVal))

def lbraceC : Char := Char.ofNat 123
def rbraceC : Char := Char.ofNat 125

def spacesJ (n : ℕ) : List Char := List.replicate n ' '

def natDigits (n : ℕ) : List Char := (Nat.repr n).toList

def renderInt (n : ℤ) : List Char :=
  if n < 0 then '-' :: natDigits n.natAbs else natDigits n.natAbs

/-- Decimal rendering of the float `mant/10^exp`, as Python `repr` does
for a float stored with that many decimal digits: optional sign, integer
part, '.', exactly `exp` fraction digits (a single '0' when the value is
integral). -/
def renderFloat (mant : ℤ) (exp : ℕ) : List Char :=
  let sign : List Char := if mant < 0 then ['-'] else []
  let m := mant.natAbs
  let ip := m / 10 ^ exp
  let fr := m % 10 ^ exp
  let frDs := natDigits fr
  let frDigits : List Char :=
    if exp = 0 then ['0']
    else List.replicate (exp - frDs.length) '0' ++ frDs
  sign ++ natDigits ip ++ '.' :: frDigits

mutual

/-- Serialization mirroring `json.dump(..., indent=2)` at nesting level
`lvl`. -/
def renderJ : JVal → ℕ → List Char
  | .jint n, _ => renderInt n
  | .jnum m e, _ => renderFloat m e
  | .jstr s, _ => '"' :: s.toList ++ ['"']
  | .jbool true, _ => ['t', 'r', 'u', 'e']
  | .jbool false, _ => ['f', 'a', 'l', 's', 'e']
  | .jarr [], _ => ['[', ']']
  | .jarr (x :: xs), lvl =>
      '[' :: '\n' :: (spacesJ (2 * (lvl + 1)) ++ renderJ x (lvl + 1) ++
        renderArrTail xs (lvl + 1) ++ '\n' :: (spacesJ (2 * lvl) ++ [']']))
  | .jobj [], _ => [lbraceC, rbraceC]
  | .jobj (f :: fs), lvl =>
      lbraceC :: '\n' :: (spacesJ (2 * (lvl + 1)) ++ renderField f (lvl + 1) ++
        renderObjTail fs (lvl + 1) ++ '\n' :: (spacesJ (2 * lvl) ++ [rbraceC]))

def renderArrTail : List JVal → ℕ → List Char
  | [], _ => []
  | x :: xs, lvl =>
      ',' :: '\n' :: (spacesJ (2 * lvl) ++ renderJ x lvl ++ renderArrTail xs lvl)

def renderField : String × JVal → ℕ → List Char
  | (k, v), lvl => '"' :: k.toList ++ '"' :: ':' :: ' ' :: renderJ v lvl

def renderObjTail : List (String × JVal) → ℕ → List Char
  | [], _ => []
  | f :: fs, lvl =>
      ',' :: '\n' :: (spacesJ (2 * lvl) ++ renderField f lvl ++ renderObjTail fs lvl)

end

/-- Whitespace skipping of a standard JSON reader. -/
def skipWs : List Char → List Char
  | [] => []
  | c :: cs =>
      if c = ' ' ∨ c = '\n' ∨ c = '\t' ∨ c = '\r' then skipWs cs else c :: cs

def readDigits : List Char → List Char × List Char
  | [] => ([], [])
  | c :: cs =>
      if '0' ≤ c ∧ c ≤ '9' then
        let p := readDigits cs
        (c :: p.1, p.2)
      else ([], c :: cs)

def digitsVal (ds : List Char) : ℕ :=
  ds.foldl (fun a c => 10 * a + (c.toNat - 48)) 0

/-- Number token of a JSON reader: optional sign, digits, optionally a
decimal point and fraction digits; a dotted token is a float, kept as
mantissa and decimal-exponent, an undotted one an integer. -/
def parseNumberTok (cs : List Char) : Option (JVal × List Char) :=
  let p : Bool × List Char :=
    match cs with
    | '-' :: r => (true, r)
    | _ => (false, cs)
  match readDigits p.2 with
  | ([], _) => none
  | (ds, rest) =>
    match rest with
    | '.' :: rest2 =>
      match readDigits rest2 with
      | ([], _) => none
      | (fs, rest3) =>
        let m : ℤ := ((digitsVal ds * 10 ^ fs.length + digitsVal fs : ℕ) : ℤ)
        some (.jnum (if p.1 then -m else m) fs.length, rest3)
    | _ =>
      let n : ℤ := ((digitsVal ds : ℕ) : ℤ)
      some (.jint (if p.1 then -n else n), rest)

/-- String token body: everything up to the closing quote. -/
def readStr : List Char → Option (List Char × List Char)
  | [] => none
  | c :: cs =>
      if c = '"' then some ([], cs)
      else
        match readStr cs with
        | some (s, r) => some (c :: s, r)
        | none => none

mutual

/-- Recursive-descent JSON value reader (fuel-indexed). -/
def parseVal : ℕ → List Char → Option (JVal × List Char)
  | 0, _ => none
  | fuel + 1, cs =>
    match skipWs cs with
    | [] => none
    | c :: cs1 =>
      if c = '"' then
        match readStr cs1 with
        | some (s, r) => some (.jstr (String.mk s), r)
        | none => none
      else if c = '[' then
        match skipWs cs1 with
        | ']' :: r => some (.jarr [], r)
        | cs2 =>
          match parseVal fuel cs2 with
          | some (v, r) => parseArrTail fuel [v] r
          | none => none
      else if c = lbraceC then
        match skipWs cs1 with
        | c2 :: r =>
          if c2 = rbraceC then some (.jobj [], r)
          else parseObjBody fuel (c2 :: r) []
        | [] => none
      else if c = 't' then
        match cs1 with
        | 'r' :: 'u' :: 'e' :: r => some (.jbool true, r)
        | _ => none
      else if c = 'f' then
        match cs1 with
        | 'a' :: 'l' :: 's' :: 'e' :: r => some (.jbool false, r)
        | _ => none
      else parseNumberTok (c :: cs1)

/-- Array continuation: after one element, a comma and a further element
or the closing bracket. -/
def parseArrTail : ℕ → List JVal → List Char → Option (JVal × List Char)
  | 0, _, _ => none
  | fuel + 1, acc, cs =>
    match skipWs cs with
    | ',' :: r =>
      match parseVal fuel r with
      | some (v, r2) => parseArrTail fuel (acc ++ [v]) r2
      | none => none
    | ']' :: r => some (.jarr acc, r)
    | _ => none

/-- Object body: a quoted key, a colon, a value, then a comma and more
fields or the closing brace. -/
def parseObjBody : ℕ → List Char → List (String × JVal) →
    Option (JVal × List Char)
  | 0, _, _ => none
  | fuel + 1, cs, acc =>
    match skipWs cs with
    | c :: cs1 =>
      if c = '"' then
        match readStr cs1 with
        | some (k, r) =>
          match skipWs r with
          | ':' :: r2 =>
            match parseVal fuel r2 with
            | some (v, r3) =>
              match skipWs r3 with
              | ',' :: r4 => parseObjBody fuel r4 (acc ++ [(String.mk k, v)])
              | c2 :: r4 =>
                if c2 = rbraceC then
                  some (.jobj (acc ++ [(String.mk k, v)]), r4)
                else none
              | [] => none
            | none => none
          | _ => none
        | none => none
      else none
    | [] => none

end

/-- Whole-document reader: one value and only whitespace after it. -/
def parseJson (cs : List Char) : Option JVal :=
  match parseVal 1000 cs with
  | some (v, rest) => if skipWs rest = [] then some v else none
  | none => none

/-- The fixed metadata mapping of the script, literal for literal
(floats as exact decimal mantissa/exponent pairs: 0.98, 0.995, 0.95,
-25.0, 10.0). -/
def metadataDoc : JVal := .jobj
  [("num_channels", .jint 8),
   ("phase_fidelity_range", .jarr [.jnum 98 2, .jnum 995 3]),
   ("min_energy_recovery", .jnum 95 2),
   ("wdm_crosstalk_bound_dB", .jnum (-250) 1),
   ("wdm_enabled", .jbool true),
   ("ring_radius_um", .jnum 100 1),
   ("notes", .jstr "Generated from Lean4 invariants")]

/-- C8: parsing the pretty-printed JSON text written for the metadata
mapping reproduces the mapping exactly — serialize-then-parse is the
identity on this document, every literal (channel count, the two
fidelity bounds, energy recovery, crosstalk bound, flag, radius, note)
surviving with no precision loss. -/
theorem c8_metadata_roundtrip :
    parseJson (renderJ metadataDoc 0) = some metadataDoc := rfl

/-! ## Instantiated witnesses -/

/-- C1 witness: the singleton point list containing (1.0, 2.0). -/
theorem c1_witness :
    (GDSWriter.init.writeBoundary 1 0
        (([] : List (ℚ × ℚ)) ++ (1.0, 2.0) :: ([] : List (ℚ × ℚ)))).records.get? 3 =
      some ⟨0x10, 0x03,
        .i32s (([] : List (ℚ × ℚ)).flatMap (scalePoint GDSWriter.init.unit)
          ++ 1000000 :: 2000000 ::
            ([] : List (ℚ × ℚ)).flatMap (scalePoint GDSWriter.init.unit))⟩ :=
  c1_coordinate_scaling 1 0 [] []

/-- C3 witness: the fresh writer at a concrete timestamp. -/
theorem c3_witness :
    (GDSWriter.init.writeHeader [2026, 1, 1, 0, 0, 0]).records =
      GDSWriter.init.records ++
        [⟨0x00, 0x02, .u16 600⟩,
         ⟨0x01, 0x02, .times ([2026, 1, 1, 0, 0, 0] ++ [2026, 1, 1, 0, 0, 0])⟩,
         ⟨0x02, 0x06, .ascii "RPC_INTERFACE\x00"⟩,
         ⟨0x03, 0x05, .f64s [GDSWriter.init.precision, GDSWriter.init.unit]⟩] :=
  c3_header_four_records GDSWriter.init [2026, 1, 1, 0, 0, 0]

/-- C5 witness: the layout's concrete ring at center (150, 0) with
radius 10 and width 0.45. -/
theorem c5_witness :
    (ring_resonator_placeholder 150 0 10 0.45 (0.5, 0.5, 0.5) []).2 =
        ([] : List Polygon) ++
          [(ringPts 150 0 (10 + 0.45 / 2), (0.5, 0.5, 0.5)),
           (ringPts 150 0 (10 - 0.45 / 2), (1, 1, 1))] ∧
      (ringPts 150 0 (10 + 0.45 / 2)).length = 65 ∧
      (ringPts 150 0 (10 - 0.45 / 2)).length = 65 ∧
      (∀ p ∈ ringPts 150 0 (10 + 0.45 / 2),
        dist2 (150, 0) p = |(10 : ℝ) + 0.45 / 2|) ∧
      (∀ p ∈ ringPts 150 0 (10 - 0.45 / 2),
        dist2 (150, 0) p = |(10 : ℝ) - 0.45 / 2|) :=
  c5_ring_geometry 150 0 10 0.45 (0.5, 0.5, 0.5) []
